import Mathlib

/-!
Shallow embedding of the Discord-Link-Guardian threat-scoring and moderation
engine (src/database.py, src/moderation.py, src/bot.py, src/ai_analyzer.py).

Conventions of the embedding:
- SQLite rows become Lean structures; DEFAULT-filled columns that no claim
  reads (timestamp, moderator_id) are omitted.
- Timestamps are integers (seconds). Both clock reads in the source, the
  SQLite expression for the current time inside get_active_mutes and the
  Python current-time call inside check_expired_mutes, are modelled as the
  same instant, passed in as the parameter now.
- Scores and confidences are rationals; the numeric literals of the source
  (0.2, 0.4, 0.5, 0.7, 0.8) are exact in this arithmetic.
- Awaited I/O calls (HTTP fetch, AI backend, web search, Discord actions)
  are oracles: their outcomes are explicit parameters, and an uncaught
  Python exception is an Except.error value threaded exactly where the
  source has no try/except around the call.
-/

namespace LinkGuardian

/-- One row of the warnings table (src/database.py, CREATE TABLE warnings). -/
structure WarningRow where
  id : Nat
  guild_id : Nat
  user_id : Nat
  reason : String
  channel_id : Option Nat
deriving DecidableEq, Repr

/-- One row of the mutes table (src/database.py, CREATE TABLE mutes).
In SELECT-star tuples, index 2 is user_id and index 3 is mute_end. -/
structure MuteRow where
  id : Nat
  guild_id : Nat
  user_id : Nat
  mute_end : Int
  reason : Option String
deriving DecidableEq, Repr

/-- One row of the bans table (src/database.py, CREATE TABLE bans). -/
structure BanRow where
  id : Nat
  guild_id : Nat
  user_id : Nat
  reason : String
  permanent : Bool
deriving DecidableEq, Repr

/-- One row of the link_history table (src/database.py). -/
structure LinkRow where
  id : Nat
  guild_id : Nat
  user_id : Nat
  url : String
  threat_level : String
  action_taken : String
deriving DecidableEq, Repr

/-- The persistence store: the four tables of src/database.py plus the
autoincrement counter. -/
structure DB where
  warnings : List WarningRow
  mutes : List MuteRow
  bans : List BanRow
  link_history : List LinkRow
  nextId : Nat
deriving DecidableEq, Repr

/-- Database.add_warning: INSERT one warnings row, then return
SELECT COUNT(star) of the rows for this (guild_id, user_id) pair. -/
def DB.add_warning (db : DB) (guild_id user_id : Nat) (reason : String)
    (channel_id : Option Nat) : DB × Nat :=
  let row : WarningRow :=
    { id := db.nextId, guild_id := guild_id, user_id := user_id,
      reason := reason, channel_id := channel_id }
  let db2 : DB := { db with warnings := db.warnings ++ [row], nextId := db.nextId + 1 }
  (db2, (db2.warnings.filter
    (fun w => w.guild_id == guild_id && w.user_id == user_id)).length)

/-- Database.add_mute: INSERT one mutes row, unconditionally. -/
def DB.add_mute (db : DB) (guild_id user_id : Nat) (mute_end : Int)
    (reason : Option String) : DB :=
  { db with
    mutes := db.mutes ++
      [{ id := db.nextId, guild_id := guild_id, user_id := user_id,
         mute_end := mute_end, reason := reason }],
    nextId := db.nextId + 1 }

/-- Database.get_active_mutes: SELECT star FROM mutes WHERE guild_id matches
AND mute_end is strictly later than the current time. -/
def DB.get_active_mutes (now : Int) (db : DB) (guild_id : Nat) : List MuteRow :=
  db.mutes.filter (fun m => m.guild_id == guild_id && now < m.mute_end)

/-- Database.remove_mute: DELETE FROM mutes WHERE guild_id AND user_id match
(no date filter, so every row of the pair is deleted). -/
def DB.remove_mute (db : DB) (guild_id user_id : Nat) : DB :=
  { db with
    mutes := db.mutes.filter
      (fun m => !(m.guild_id == guild_id && m.user_id == user_id)) }

/-- A guild member: its id, the bot flag checked by on_message, and the
names of the roles it carries. -/
structure Member where
  id : Nat
  isBot : Bool
  roles : List String
deriving DecidableEq, Repr

/-- A guild: its id, the role names existing in the guild, its channels,
the per-channel permission overrides set for a role, and its members. -/
structure Guild where
  gid : Nat
  roleNames : List String
  channelIds : List Nat
  overrides : List (Nat × String)
  members : List Member
deriving DecidableEq, Repr

/-- guild.get_member(user_id). -/
def Guild.getMember (g : Guild) (uid : Nat) : Option Member :=
  g.members.find? (fun m => m.id == uid)

/-- Update the member with the given id inside the guild, if present. -/
def Guild.updateMember (g : Guild) (uid : Nat) (f : Member → Member) : Guild :=
  { g with members := g.members.map (fun m => if m.id == uid then f m else m) }

/-- ModerationSystem.is_user_muted: true when some row returned by
get_active_mutes for the guild carries this user id (the m index-2 field). -/
def isUserMuted (now : Int) (db : DB) (guild_id user_id : Nat) : Bool :=
  (DB.get_active_mutes now db guild_id).any (fun m => m.user_id == user_id)

/-- ModerationSystem.mute_user: create the Muted role if the guild lacks it
(propagating a permission override to every channel), add the role to the
member unless already present (discord add_roles is idempotent), then
insert a mute row ending duration_days days from now. -/
def muteUser (now : Int) (g : Guild) (uid : Nat) (db : DB)
    (duration_days : Int) (reason : Option String) : Guild × DB :=
  let g1 :=
    if g.roleNames.contains "Muted" then g
    else
      { g with
        roleNames := g.roleNames ++ ["Muted"],
        overrides := g.overrides ++ g.channelIds.map (fun c => (c, "Muted")) }
  let g2 := g1.updateMember uid (fun m =>
    if m.roles.contains "Muted" then m else { m with roles := m.roles ++ ["Muted"] })
  let mute_end := now + duration_days * 86400
  (g2, DB.add_mute db g.gid uid mute_end reason)

/-- ModerationSystem.unmute_user: remove the Muted role from the member only
when the guild has the role and the member carries it, then delete every
mute row of the (guild, user) pair. -/
def unmuteUser (g : Guild) (uid : Nat) (db : DB) : Guild × DB :=
  let g2 :=
    if g.roleNames.contains "Muted" then
      g.updateMember uid (fun m =>
        if m.roles.contains "Muted" then
          { m with roles := m.roles.filter (fun r => r != "Muted") }
        else m)
    else g
  (g2, DB.remove_mute db g.gid uid)

/-- One guild pass of ModerationSystem.check_expired_mutes: fetch the active
mutes of the guild once, then for each fetched row unmute the member when
the current time is past mute_end and the member is still in the guild. -/
def sweepGuild (now : Int) (g : Guild) (db : DB) : Guild × DB :=
  (DB.get_active_mutes now db g.gid).foldl
    (fun acc mute =>
      if now > mute.mute_end then
        match acc.1.getMember mute.user_id with
        | some _ => unmuteUser acc.1 mute.user_id acc.2
        | none => acc
      else acc)
    (g, db)

/-- ModerationSystem.check_expired_mutes: the sweep over every guild of the
bot, threading the store through the guild passes. -/
def checkExpiredMutes (now : Int) (guilds : List Guild) (db : DB) :
    List Guild × DB :=
  guilds.foldl
    (fun acc g =>
      let r := sweepGuild now g acc.2
      (acc.1 ++ [r.1], r.2))
    ([], db)

/-- The four threat levels assigned by LinkGuardianBot.determine_threat_level. -/
inductive ThreatLevel
  | safe
  | caution
  | suspicious
  | danger
deriving DecidableEq, Repr

/-- One verdict side (basic or AI): threat_score, confidence, flags, as the
dictionaries flowing between LinkAnalyzer, AIAnalyzer and the bot. -/
structure Verdict where
  threat_score : ℚ
  confidence : ℚ
  flags : List String
deriving DecidableEq, Repr

/-- LinkGuardianBot.determine_threat_level: average the two threat scores and
bucket by the fixed thresholds 0.8, 0.5, 0.2. -/
def determine_threat_level (basic ai : Verdict) : ThreatLevel :=
  let avg_score := (basic.threat_score + ai.threat_score) / 2
  if avg_score ≥ 4/5 then .danger
  else if avg_score ≥ 1/2 then .suspicious
  else if avg_score ≥ 1/5 then .caution
  else .safe

/-- The combined result assembled by LinkGuardianBot.analyze_link: the
threat_level, confidence and reasons fields of the result dictionary
(the url and details fields carry no claim content). -/
structure CombinedResult where
  threat_level : ThreatLevel
  confidence : ℚ
  reasons : List String
deriving DecidableEq, Repr

/-- The combining tail of LinkGuardianBot.analyze_link: threat level from
determine_threat_level, confidence as the average of the two confidences,
reasons as the concatenation of the two flag lists. -/
def analyze_link_combine (basic ai : Verdict) : CombinedResult :=
  { threat_level := determine_threat_level basic ai,
    confidence := (basic.confidence + ai.confidence) / 2,
    reasons := basic.flags ++ ai.flags }

/-- The claim-side threshold map: the threat level as a pure function of the
average score alone, with the fixed thresholds 0.8, 0.5, 0.2 named by the
spec. Stated separately so that determine_threat_level can be proven to
factor through it. -/
def threatLevelOfAvg (q : ℚ) : ThreatLevel :=
  if q ≥ 4/5 then .danger
  else if q ≥ 1/2 then .suspicious
  else if q ≥ 1/5 then .caution
  else .safe

/-- Observable side effects of the message handler other than store writes:
message deletion, the advisory embed edited per branch, the admin
notification, the delayed advisory deletion of the safe branch, and the
two abstracted continuations of on_message (link processing, command
processing). -/
inductive Action
  | deleteMessage
  | editAdvisory (level : ThreatLevel)
  | notifyAdmins
  | deleteAdvisory
  | processLinks
  | processCommands
deriving DecidableEq, Repr

/-- LinkGuardianBot.handle_analysis_result. Inputs: the message context
(guild, author id, channel id), the analyzed url, the combined threat level
and confidence, whether message deletion succeeds (deleteOk false models a
Forbidden error, which is caught and only logged), and the store. Returns
the updated guild, the updated store, and the visible actions.
Branches exactly as the source: the danger branch requires confidence
above 0.7 and appends a warning, then mutes on a count of at least 3; the
suspicious and caution branches only edit the advisory; every other case
(including danger with low confidence) falls to the safe branch. -/
def handleAnalysisResult (now : Int) (g : Guild) (authorId channelId : Nat)
    (url : String) (threat_level : ThreatLevel) (confidence : ℚ)
    (deleteOk : Bool) (db : DB) : Guild × DB × List Action :=
  if threat_level = .danger ∧ confidence > 7/10 then
    let acts0 := if deleteOk then [Action.deleteMessage] else []
    let r := DB.add_warning db g.gid authorId
      ("Posted dangerous link: " ++ url.take 50 ++ "...") (some channelId)
    let warning_count := r.2
    let acts := acts0 ++ [Action.editAdvisory .danger, Action.notifyAdmins]
    if warning_count ≥ 3 then
      let m := muteUser now g authorId r.1 15
        (some "3 warnings for posting dangerous links")
      (m.1, m.2, acts)
    else
      (g, r.1, acts)
  else if threat_level = .suspicious then
    (g, db, [Action.editAdvisory .suspicious])
  else if threat_level = .caution then
    (g, db, [Action.editAdvisory .caution])
  else
    (g, db, [Action.editAdvisory .safe, Action.deleteAdvisory])

/-- LinkGuardianBot.on_message, to the granularity the gate claims need.
hasUrls is the outcome of the url regex findall; deleteOk is whether the
deletion of the muted author message succeeds. In the source the early
return sits inside the try block, so on a Forbidden error control falls
through to link processing; link and command processing are abstracted to
their actions. -/
def on_message (now : Int) (g : Guild) (author : Member) (hasUrls : Bool)
    (deleteOk : Bool) (db : DB) : List Action :=
  if author.isBot then []
  else if isUserMuted now db g.gid author.id then
    if deleteOk then [Action.deleteMessage]
    else (if hasUrls then [Action.processLinks] else []) ++ [Action.processCommands]
  else (if hasUrls then [Action.processLinks] else []) ++ [Action.processCommands]

/-- The schema fields of the AI content-classification response that
AIAnalyzer.ai_content_analysis actually reads, each optional because the
source reads them with dictionary get and a default. -/
structure AIFields where
  confidence : Option ℚ
  threat_level : Option String
  indicators : Option (List String)
deriving DecidableEq, Repr

/-- Outcome of the AI backend call plus JSON decoding inside the try block
of ai_content_analysis: the call raised, the response was not valid JSON,
the response was valid JSON but not an object (attribute access on it
raises, caught by the same handler), or a JSON object with its fields. -/
inductive AIResponse
  | callError
  | notJson
  | nonObject
  | obj (fields : AIFields)
deriving DecidableEq, Repr

/-- AIAnalyzer.ai_content_analysis as a function of the call-and-parse
outcome: on an object response, map threat_level high, medium, low to the
scores 0.8, 0.5, 0.2 (else 0), take confidence with default 0.5 and
indicators with default empty; every exception path returns the fixed
fallback verdict of the except branch. -/
def ai_content_analysis (resp : AIResponse) : Verdict :=
  match resp with
  | .obj f =>
    let threat_score : ℚ :=
      if f.threat_level = some "high" then 4/5
      else if f.threat_level = some "medium" then 1/2
      else if f.threat_level = some "low" then 1/5
      else 0
    { threat_score := threat_score,
      confidence := f.confidence.getD (1/2),
      flags := f.indicators.getD [] }
  | _ =>
    { threat_score := 0, confidence := 0, flags := ["AI analysis unavailable"] }

/-- The reputation dictionary as consumed by AIAnalyzer.analyze, reduced to
the has_complaints field it reads with a default of false. -/
structure RepDict where
  has_complaints : Option Bool
deriving DecidableEq, Repr

/-- Outcome of the AI reputation call plus JSON decoding inside
ai_reputation_analysis: failure, or an object carrying (or lacking) the
has_complaints field. -/
inductive RepResponse
  | callError
  | obj (has_complaints : Option Bool)
deriving DecidableEq, Repr

/-- AIAnalyzer.ai_reputation_analysis: return the parsed object, or the
empty dictionary when the call or the JSON decoding raised. -/
def ai_reputation_analysis (resp : RepResponse) : RepDict :=
  match resp with
  | .callError => { has_complaints := none }
  | .obj b => { has_complaints := b }

/-- Uncaught Python exceptions relevant to AIAnalyzer.analyze. -/
inductive PyErr
  | nameErrorUrllib
deriving DecidableEq, Repr

/-- AIAnalyzer.search_web_reputation: its first statement evaluates
urllib.parse.urlparse, but the module never imports urllib, so every call
raises NameError before reaching the guarded search loop. -/
def search_web_reputation : Except PyErr (List String) :=
  .error .nameErrorUrllib

/-- The body of AIAnalyzer.analyze, parametrized by the outcomes of its
individually awaited steps: the page fetch (fetch_page_content catches its
own errors and returns none on failure; the fetched contents influence only
the prompt, so they carry no data here), the content-classification
response, the reputation-search outcome (the source has no try/except
around this call, so its error is propagated), and the reputation
response. On a successful search with nonempty results and has_complaints
true, add 0.4 to the threat score and append the complaint flag; the
source applies no clamp. analyzeBase names the intermediate result after
the content step: the zero-initialized result dictionary, overwritten by
the content analysis when a page was fetched. -/
def analyzeBase (page_content : Option Unit) (aiResp : AIResponse) : Verdict :=
  match page_content with
  | some _ => ai_content_analysis aiResp
  | none => { threat_score := 0, confidence := 0, flags := [] }

/-- The rest of the body of AIAnalyzer.analyze after the content step; see
the comment on analyzeBase for the oracle convention. -/
def analyzeWith (page_content : Option Unit) (aiResp : AIResponse)
    (searchOut : Except PyErr (List String)) (repResp : RepResponse) :
    Except PyErr Verdict :=
  let result : Verdict := analyzeBase page_content aiResp
  match searchOut with
  | .error e => .error e
  | .ok search_results =>
    if search_results ≠ [] then
      let reputation := ai_reputation_analysis repResp
      if reputation.has_complaints.getD false then
        .ok { result with
              threat_score := result.threat_score + 2/5,
              flags := result.flags ++ ["Negative reviews/complaints found"] }
      else .ok result
    else .ok result

/-- AIAnalyzer.analyze: the body applied to the real reputation-search step
of the module, which always raises NameError for the missing urllib
import. -/
def analyze (page_content : Option Unit) (aiResp : AIResponse)
    (repResp : RepResponse) : Except PyErr Verdict :=
  analyzeWith page_content aiResp search_web_reputation repResp

/-- Number of warnings rows stored for a (guild, user) pair, the quantity
Database.add_warning recounts after its insert. -/
def warningCount (db : DB) (guild_id user_id : Nat) : Nat :=
  (db.warnings.filter
    (fun w => w.guild_id == guild_id && w.user_id == user_id)).length

/-- Number of active mute rows (mute_end still in the future) stored for a
(guild, user) pair. -/
def activeMuteCount (now : Int) (db : DB) (guild_id user_id : Nat) : Nat :=
  ((DB.get_active_mutes now db guild_id).filter
    (fun m => m.user_id == user_id)).length

/-- The reported confidence values of an AI response all lie in the unit
interval (vacuously true for the failure outcomes and a missing field). -/
def aiConfIn01 : AIResponse → Bool
  | .obj f =>
    match f.confidence with
    | some q => decide (0 ≤ q ∧ q ≤ 1)
    | none => true
  | _ => true

/-! Concrete sample states used by the closed theorems below. -/

/-- A guild with one channel, the Muted role already set up, and one
ordinary member (id 7) carrying the Muted role. -/
def gMuted : Guild :=
  { gid := 1, roleNames := ["Muted"], channelIds := [10],
    overrides := [(10, "Muted")],
    members := [{ id := 7, isBot := false, roles := ["Muted"] }] }

/-- A store holding a single mute row for (guild 1, user 7) whose mute_end
(time 100) is already in the past at sweep time 200. -/
def dbExpired : DB :=
  { warnings := [],
    mutes := [{ id := 0, guild_id := 1, user_id := 7, mute_end := 100,
                reason := some "r" }],
    bans := [], link_history := [], nextId := 1 }

/-- A store where (guild 1, user 7) already has three warnings and one
still-active mute row (mute_end 2000000, far after time 0). -/
def dbThreeWarnings : DB :=
  { warnings :=
      [{ id := 0, guild_id := 1, user_id := 7, reason := "w1", channel_id := some 10 },
       { id := 1, guild_id := 1, user_id := 7, reason := "w2", channel_id := some 10 },
       { id := 2, guild_id := 1, user_id := 7, reason := "w3", channel_id := some 10 }],
    mutes := [{ id := 3, guild_id := 1, user_id := 7, mute_end := 2000000,
                reason := some "3 warnings for posting dangerous links" }],
    bans := [], link_history := [], nextId := 4 }

/-- An AI content response rating the page high with confidence one half. -/
def aiHigh : AIFields :=
  { confidence := some (1/2), threat_level := some "high",
    indicators := some ["phishing page"] }

/-- An AI content response whose reported confidence is 2, outside the unit
interval. -/
def aiBigConf : AIFields :=
  { confidence := some 2, threat_level := none, indicators := none }

/-! Helper lemmas shared between the claim proofs. -/

/-- Filtering by a predicate after keeping only its complement is empty. -/
theorem filter_not_filter (l : List MuteRow) (p : MuteRow → Bool) :
    (l.filter (fun m => !(p m))).filter p = [] := by
  induction l with
  | nil => rfl
  | cons a t ih =>
    by_cases h : p a <;> simp [List.filter_cons, h, ih]

/-- After deleting every row of a pair, no remaining row of the guild still
carries the user id, whatever activity filter is applied on top. -/
theorem muted_any_after_remove (l : List MuteRow) (gid uid : Nat) (now : Int) :
    ((l.filter (fun m => !(m.guild_id == gid && m.user_id == uid))).filter
      (fun m => m.guild_id == gid && now < m.mute_end)).any
      (fun m => m.user_id == uid) = false := by
  rw [List.any_eq_false]
  rintro m hm
  rcases List.mem_filter.mp hm with ⟨hm1, hact⟩
  rcases List.mem_filter.mp hm1 with ⟨-, hnp⟩
  have hact2 : m.guild_id = gid ∧ now < m.mute_end := by simpa using hact
  have hnp2 : ¬m.guild_id = gid ∨ ¬m.user_id = uid := by simpa using hnp
  rcases hnp2 with h | h
  · exact absurd hact2.1 h
  · simp [h]

/-- Appending one warnings row for a pair increases the count of that pair by
exactly one; this is the count Database.add_warning returns. -/
theorem add_warning_snd (db : DB) (gid uid : Nat) (r : String)
    (ch : Option Nat) :
    (DB.add_warning db gid uid r ch).2 = warningCount db gid uid + 1 := by
  simp [DB.add_warning, warningCount, List.filter_append, List.filter_cons]

/-- Database.add_warning leaves the warning count of any pair it did not
write for unchanged, and raises the count of the written pair by one. -/
theorem warningCount_add_warning (db : DB) (gid uid : Nat) (r : String)
    (ch : Option Nat) :
    warningCount (DB.add_warning db gid uid r ch).1 gid uid =
      warningCount db gid uid + 1 := by
  simp [DB.add_warning, warningCount, List.filter_append, List.filter_cons]

/-- Database.add_mute does not touch the warnings table. -/
theorem warningCount_add_mute (db : DB) (gid uid g u : Nat) (e : Int)
    (r : Option String) :
    warningCount (DB.add_mute db gid uid e r) g u = warningCount db g u := by
  simp [DB.add_mute, warningCount]

/-- The store component of ModerationSystem.mute_user is exactly one
Database.add_mute call ending duration_days days from now. -/
theorem muteUser_db (now : Int) (g : Guild) (uid : Nat) (db : DB)
    (d : Int) (r : Option String) :
    (muteUser now g uid db d r).2 =
      DB.add_mute db g.gid uid (now + d * 86400) r := rfl

/-- Inserting a mute row that is still active raises the active-mute count of the pair
count by one. -/
theorem activeMuteCount_add_mute (now : Int) (db : DB) (gid uid : Nat)
    (e : Int) (r : Option String) (he : now < e) :
    activeMuteCount now (DB.add_mute db gid uid e r) gid uid =
      activeMuteCount now db gid uid + 1 := by
  simp [DB.add_mute, activeMuteCount, DB.get_active_mutes,
    List.filter_append, List.filter_cons, he]

/-- Database.add_warning does not touch the mutes table. -/
theorem activeMuteCount_add_warning (now : Int) (db : DB) (gid uid g u : Nat)
    (r : String) (ch : Option Nat) :
    activeMuteCount now (DB.add_warning db gid uid r ch).1 g u =
      activeMuteCount now db g u := by
  simp [DB.add_warning, activeMuteCount, DB.get_active_mutes]

/-! The claims. -/

/-- C1: a mute record whose mute_end is in the past at sweep time is removed
by the sweep and the restrictive role is taken away. REFUTED as a code bug:
get_active_mutes filters rows by mute_end strictly later than now, so an
expired row is never fetched; the inner expiry test (now past mute_end) can
never hold on a fetched row, and the sweep changes nothing. Here the
only mute of the guild (mute_end 100) is expired at sweep time 200, yet the
whole state, store and role set included, survives the sweep unchanged. -/
theorem c1_sweep_ignores_expired_mute :
    (∀ m ∈ dbExpired.mutes, m.mute_end < 200) ∧
    checkExpiredMutes 200 [gMuted] dbExpired = ([gMuted], dbExpired) := by
  decide

/-- C5: a call failure or a response outside the expected schema yields the
neutral verdict. REFUTED as stated: a response that is a JSON object with
every schema field missing is still accepted through the dictionary-get
defaults, producing confidence one half and no diagnostic flag instead of
the neutral verdict. -/
theorem c5_counterexample :
    ai_content_analysis
      (AIResponse.obj { confidence := none, threat_level := none, indicators := none }) =
      { threat_score := 0, confidence := 1/2, flags := [] } ∧
    ¬ ((1 : ℚ)/2 = 0) :=
  ⟨rfl, by norm_num⟩

/-- C5 amended: ai_content_analysis returns the neutral verdict (score 0,
confidence 0, exactly the one diagnostic flag) precisely on the exception
paths: the backend call raising, a response that is not valid JSON, or a
JSON value that is not an object; a JSON object missing schema fields is
instead accepted with per-field defaults. The function is total, so no
error reaches the caller. -/
theorem c5_amended (r : AIResponse)
    (h : r = AIResponse.callError ∨ r = AIResponse.notJson ∨ r = AIResponse.nonObject) :
    ai_content_analysis r =
      { threat_score := 0, confidence := 0, flags := ["AI analysis unavailable"] } := by
  rcases h with h | h | h <;> subst h <;> rfl

/-- C5 witness: the amended theorem applied to the call-failure outcome. -/
theorem c5_amended_witness :
    ai_content_analysis AIResponse.callError =
      { threat_score := 0, confidence := 0, flags := ["AI analysis unavailable"] } :=
  c5_amended AIResponse.callError (Or.inl rfl)

/-- C6: AIAnalyzer.analyze always returns a verdict and isolates failures of
the reputation branch. REFUTED as a code bug: search_web_reputation begins
by evaluating urllib.parse.urlparse although the module never imports
urllib, so it raises NameError, and analyze calls it with no try/except, so
every call of analyze propagates the error to its caller regardless of the
other step outcomes. -/
theorem c6_analyze_raises (page_content : Option Unit) (aiResp : AIResponse)
    (repResp : RepResponse) :
    analyze page_content aiResp repResp = Except.error PyErr.nameErrorUrllib := rfl

/-- C9: a suspicious or caution result mutates no store state and only
produces the advisory. CONFIRMED: in those two branches
handle_analysis_result returns the guild and store untouched and its only
visible action is the one advisory edit. -/
theorem c9_advisory_only (now : Int) (g : Guild) (authorId channelId : Nat)
    (url : String) (level : ThreatLevel) (conf : ℚ) (deleteOk : Bool) (db : DB)
    (h : level = ThreatLevel.suspicious ∨ level = ThreatLevel.caution) :
    handleAnalysisResult now g authorId channelId url level conf deleteOk db =
      (g, db, [Action.editAdvisory level]) := by
  rcases h with h | h <;> subst h <;> simp [handleAnalysisResult]

/-- C9 witness: the advisory-only theorem at a concrete suspicious result. -/
theorem c9_advisory_only_witness :
    handleAnalysisResult 0 gMuted 7 10 "u" ThreatLevel.suspicious (9/10) true dbThreeWarnings =
      (gMuted, dbThreeWarnings, [Action.editAdvisory ThreatLevel.suspicious]) :=
  c9_advisory_only 0 gMuted 7 10 "u" ThreatLevel.suspicious (9/10) true dbThreeWarnings
    (Or.inl rfl)

/-- C10: after unmute_user, the store holds no mute row for the pair and
is_user_muted reports false, from every prior store state. CONFIRMED:
remove_mute deletes every row of the pair, and is_user_muted only inspects
rows of the guild carrying the user id. -/
theorem c10_unmute_roundtrip (now : Int) (g : Guild) (uid : Nat) (db : DB) :
    (unmuteUser g uid db).2.mutes.filter
      (fun m => m.guild_id == g.gid && m.user_id == uid) = [] ∧
    isUserMuted now (unmuteUser g uid db).2 g.gid uid = false := by
  have hmutes : (unmuteUser g uid db).2.mutes =
      db.mutes.filter (fun m => !(m.guild_id == g.gid && m.user_id == uid)) := rfl
  constructor
  · rw [hmutes]
    exact filter_not_filter _ _
  · simp only [isUserMuted, DB.get_active_mutes, hmutes]
    exact muted_any_after_remove db.mutes g.gid uid now

/-- The threshold map sends a score to danger from 0.8 up, suspicious on
[0.5, 0.8), caution on [0.2, 0.5), and safe below 0.2; each boundary value
lands in the higher bucket. -/
theorem threat_level_cases (q : ℚ) :
    (threatLevelOfAvg q = ThreatLevel.danger ↔ 4/5 ≤ q) ∧
    (threatLevelOfAvg q = ThreatLevel.suspicious ↔ 1/2 ≤ q ∧ q < 4/5) ∧
    (threatLevelOfAvg q = ThreatLevel.caution ↔ 1/5 ≤ q ∧ q < 1/2) ∧
    (threatLevelOfAvg q = ThreatLevel.safe ↔ q < 1/5) := by
  unfold threatLevelOfAvg
  by_cases h1 : (4:ℚ)/5 ≤ q
  · rw [if_pos (show q ≥ 4/5 from h1)]
    refine ⟨iff_of_true rfl h1, iff_of_false (by simp) ?_,
      iff_of_false (by simp) ?_, iff_of_false (by simp) ?_⟩
    · rintro ⟨-, hb⟩; linarith
    · rintro ⟨-, hb⟩; linarith
    · intro hb; linarith
  · rw [if_neg (show ¬ q ≥ 4/5 from h1)]
    push_neg at h1
    by_cases h2 : (1:ℚ)/2 ≤ q
    · rw [if_pos (show q ≥ 1/2 from h2)]
      refine ⟨iff_of_false (by simp) ?_, iff_of_true rfl ⟨h2, h1⟩,
        iff_of_false (by simp) ?_, iff_of_false (by simp) ?_⟩
      · intro hb; linarith
      · rintro ⟨-, hb⟩; linarith
      · intro hb; linarith
    · rw [if_neg (show ¬ q ≥ 1/2 from h2)]
      push_neg at h2
      by_cases h3 : (1:ℚ)/5 ≤ q
      · rw [if_pos (show q ≥ 1/5 from h3)]
        refine ⟨iff_of_false (by simp) ?_, iff_of_false (by simp) ?_,
          iff_of_true rfl ⟨h3, h2⟩, iff_of_false (by simp) ?_⟩
        · intro hb; linarith
        · rintro ⟨hb, -⟩; linarith
        · intro hb; linarith
      · rw [if_neg (show ¬ q ≥ 1/5 from h3)]
        push_neg at h3
        refine ⟨iff_of_false (by simp) ?_, iff_of_false (by simp) ?_,
          iff_of_false (by simp) ?_, iff_of_true rfl h3⟩
        · intro hb; linarith
        · rintro ⟨hb, -⟩; linarith
        · rintro ⟨hb, -⟩; linarith

/-- C3: the combiner averages the two scores and the two confidences,
concatenates the flag lists basic first, and buckets the average score with
danger from 0.8, suspicious from 0.5, caution from 0.2, safe below, the
boundaries landing in the higher bucket. CONFIRMED: the combining tail of
analyze_link and determine_threat_level compute exactly this, and the level
factors through the pure threshold map of the average score. -/
theorem c3_combiner (basic ai : Verdict) :
    (analyze_link_combine basic ai).confidence =
      (basic.confidence + ai.confidence) / 2 ∧
    (analyze_link_combine basic ai).reasons = basic.flags ++ ai.flags ∧
    (analyze_link_combine basic ai).threat_level = determine_threat_level basic ai ∧
    determine_threat_level basic ai =
      threatLevelOfAvg ((basic.threat_score + ai.threat_score) / 2) ∧
    (∀ q : ℚ,
      (threatLevelOfAvg q = ThreatLevel.danger ↔ 4/5 ≤ q) ∧
      (threatLevelOfAvg q = ThreatLevel.suspicious ↔ 1/2 ≤ q ∧ q < 4/5) ∧
      (threatLevelOfAvg q = ThreatLevel.caution ↔ 1/5 ≤ q ∧ q < 1/2) ∧
      (threatLevelOfAvg q = ThreatLevel.safe ↔ q < 1/5)) :=
  ⟨rfl, rfl, rfl, rfl, threat_level_cases⟩

/-- C8: exactly the danger results with confidence above 0.7 add one to the
stored warning count of the (guild, author) pair; every other handled
result leaves it unchanged. CONFIRMED: the danger branch inserts one
warnings row for the pair and the mute that may follow writes only the
mutes table; the other branches write nothing. -/
theorem c8_warning_count (now : Int) (g : Guild) (authorId channelId : Nat)
    (url : String) (level : ThreatLevel) (conf : ℚ) (deleteOk : Bool) (db : DB) :
    warningCount
      (handleAnalysisResult now g authorId channelId url level conf deleteOk db).2.1
      g.gid authorId =
    warningCount db g.gid authorId +
      (if level = ThreatLevel.danger ∧ conf > 7/10 then 1 else 0) := by
  by_cases hd : level = ThreatLevel.danger ∧ conf > 7/10
  · rw [if_pos hd]
    simp only [handleAnalysisResult, if_pos hd]
    by_cases hc : (DB.add_warning db g.gid authorId
        ("Posted dangerous link: " ++ url.take 50 ++ "...") (some channelId)).2 ≥ 3
    · rw [if_pos hc]
      simp [muteUser_db, warningCount_add_mute, warningCount_add_warning]
    · rw [if_neg hc]
      simp [warningCount_add_warning]
  · rw [if_neg hd]
    cases level with
    | danger =>
      have hnc : ¬ conf > 7/10 := fun hcf => hd ⟨rfl, hcf⟩
      simp [handleAnalysisResult, hnc]
    | safe => simp [handleAnalysisResult]
    | caution => simp [handleAnalysisResult]
    | suspicious => simp [handleAnalysisResult]

/-- Danger branch with the threshold reached: the store coming out of
handle_analysis_result is the warning insert followed by the mute insert. -/
theorem handle_danger_mute (now : Int) (g : Guild) (authorId channelId : Nat)
    (url : String) (conf : ℚ) (deleteOk : Bool) (db : DB)
    (hconf : conf > 7/10)
    (h3 : 3 ≤ warningCount db g.gid authorId + 1) :
    (handleAnalysisResult now g authorId channelId url ThreatLevel.danger conf
      deleteOk db).2.1 =
    DB.add_mute
      (DB.add_warning db g.gid authorId
        ("Posted dangerous link: " ++ url.take 50 ++ "...") (some channelId)).1
      g.gid authorId (now + 15 * 86400)
      (some "3 warnings for posting dangerous links") := by
  have hcnt := add_warning_snd db g.gid authorId
    ("Posted dangerous link: " ++ url.take 50 ++ "...") (some channelId)
  simp [handleAnalysisResult, hconf, hcnt, h3, muteUser_db]

/-- Danger branch below the threshold: the store coming out of
handle_analysis_result is the warning insert alone. -/
theorem handle_danger_nomute (now : Int) (g : Guild) (authorId channelId : Nat)
    (url : String) (conf : ℚ) (deleteOk : Bool) (db : DB)
    (hconf : conf > 7/10)
    (h3 : warningCount db g.gid authorId + 1 < 3) :
    (handleAnalysisResult now g authorId channelId url ThreatLevel.danger conf
      deleteOk db).2.1 =
    (DB.add_warning db g.gid authorId
      ("Posted dangerous link: " ++ url.take 50 ++ "...") (some channelId)).1 := by
  have hcnt := add_warning_snd db g.gid authorId
    ("Posted dangerous link: " ++ url.take 50 ++ "...") (some channelId)
  have h3n : ¬ 3 ≤ warningCount db g.gid authorId + 1 := by omega
  simp [handleAnalysisResult, hconf, hcnt, h3n, muteUser_db]

/-- C2: at most one active mute record per (guild, user); a danger incident
while the user is already muted must not insert a second concurrent active
record. REFUTED: user 7 already holds an active mute and three warnings,
yet handling one more danger result (reachable because the muted-author
gate falls through when deletion fails) inserts a fourth warning, reaches
the threshold again, and add_mute inserts unconditionally, leaving two
concurrent active mute rows for the pair. -/
theorem c2_counterexample :
    activeMuteCount 0 dbThreeWarnings 1 7 = 1 ∧
    activeMuteCount 0
      (handleAnalysisResult 0 gMuted 7 10 "x" ThreatLevel.danger 1 false
        dbThreeWarnings).2.1 1 7 = 2 := by
  refine ⟨by decide, ?_⟩
  rw [handle_danger_mute 0 gMuted 7 10 "x" 1 false dbThreeWarnings
    (by norm_num) (by decide)]
  decide

/-- C2 amended: every danger result with confidence above 0.7 whose warning
insert brings the count of the pair to 3 or more unconditionally inserts one
more mute record, active for 15 days from now, regardless of any active
mute the pair already has; below the threshold the active-mute count is
untouched. No uniqueness of active mutes is enforced anywhere. -/
theorem c2_amended (now : Int) (g : Guild) (authorId channelId : Nat)
    (url : String) (conf : ℚ) (deleteOk : Bool) (db : DB)
    (hconf : conf > 7/10) :
    (3 ≤ warningCount db g.gid authorId + 1 →
      activeMuteCount now
        (handleAnalysisResult now g authorId channelId url ThreatLevel.danger
          conf deleteOk db).2.1 g.gid authorId =
        activeMuteCount now db g.gid authorId + 1) ∧
    (warningCount db g.gid authorId + 1 < 3 →
      activeMuteCount now
        (handleAnalysisResult now g authorId channelId url ThreatLevel.danger
          conf deleteOk db).2.1 g.gid authorId =
        activeMuteCount now db g.gid authorId) := by
  constructor
  · intro h3
    rw [handle_danger_mute now g authorId channelId url conf deleteOk db hconf h3]
    rw [activeMuteCount_add_mute _ _ _ _ _ _ (by omega), activeMuteCount_add_warning]
  · intro h3
    rw [handle_danger_nomute now g authorId channelId url conf deleteOk db hconf h3]
    rw [activeMuteCount_add_warning]

/-- C2 witness: the amended theorem at the concrete already-muted state. -/
theorem c2_amended_witness :
    activeMuteCount 0
      (handleAnalysisResult 0 gMuted 7 10 "x" ThreatLevel.danger 1 false
        dbThreeWarnings).2.1 gMuted.gid 7 =
      activeMuteCount 0 dbThreeWarnings gMuted.gid 7 + 1 :=
  (c2_amended 0 gMuted 7 10 "x" 1 false dbThreeWarnings (by norm_num)).1 (by decide)

/-- The content-analysis verdict has score between 0 and 0.8, and its
confidence stays in the unit interval whenever the backend-reported
confidence does (the default used for a missing field is one half). -/
theorem ai_content_analysis_bounds (resp : AIResponse) :
    0 ≤ (ai_content_analysis resp).threat_score ∧
    (ai_content_analysis resp).threat_score ≤ 4/5 ∧
    (aiConfIn01 resp = true →
      0 ≤ (ai_content_analysis resp).confidence ∧
        (ai_content_analysis resp).confidence ≤ 1) := by
  rcases resp with _ | _ | _ | f
  · exact ⟨le_refl 0, by norm_num [ai_content_analysis],
      fun _ => ⟨le_refl 0, by norm_num [ai_content_analysis]⟩⟩
  · exact ⟨le_refl 0, by norm_num [ai_content_analysis],
      fun _ => ⟨le_refl 0, by norm_num [ai_content_analysis]⟩⟩
  · exact ⟨le_refl 0, by norm_num [ai_content_analysis],
      fun _ => ⟨le_refl 0, by norm_num [ai_content_analysis]⟩⟩
  · refine ⟨?_, ?_, ?_⟩
    · simp only [ai_content_analysis]
      split_ifs <;> norm_num
    · simp only [ai_content_analysis]
      split_ifs <;> norm_num
    · intro hin
      rcases hq : f.confidence with _ | q
      · simp only [ai_content_analysis, hq]
        norm_num
      · have hq01 : 0 ≤ q ∧ q ≤ 1 := by
          have h2 := hin
          simp [aiConfIn01, hq] at h2
          exact h2
        simp only [ai_content_analysis, hq]
        simpa using hq01

/-- The intermediate verdict after the content step obeys the same bounds
(the no-page case is the all-zero dictionary). -/
theorem analyzeBase_bounds (page_content : Option Unit) (aiResp : AIResponse) :
    0 ≤ (analyzeBase page_content aiResp).threat_score ∧
    (analyzeBase page_content aiResp).threat_score ≤ 4/5 ∧
    (aiConfIn01 aiResp = true →
      0 ≤ (analyzeBase page_content aiResp).confidence ∧
        (analyzeBase page_content aiResp).confidence ≤ 1) := by
  rcases page_content with _ | _
  · exact ⟨le_refl 0, by norm_num [analyzeBase],
      fun _ => ⟨le_refl 0, by norm_num [analyzeBase]⟩⟩
  · exact ai_content_analysis_bounds aiResp

/-- C4: the combined AI-side threat score always lies in [0,1], the score
being clamped after the 0.4 reputation contribution, and the confidence
lies in [0,1] whatever the backend returns. REFUTED: no clamp exists.
A high content classification (0.8) plus a complaints hit (0.4) yields
score 1.2, and a backend-reported confidence of 2 is passed through
untouched. -/
theorem c4_counterexample :
    (analyzeWith (some ()) (AIResponse.obj aiHigh) (Except.ok ["r"])
        (RepResponse.obj (some true)) =
      Except.ok { threat_score := 6/5, confidence := 1/2,
                  flags := ["phishing page", "Negative reviews/complaints found"] }) ∧
    ¬ ((6:ℚ)/5 ≤ 1) ∧
    (analyzeWith (some ()) (AIResponse.obj aiBigConf) (Except.ok [])
        RepResponse.callError =
      Except.ok { threat_score := 0, confidence := 2, flags := [] }) ∧
    ¬ ((2:ℚ) ≤ 1) := by
  refine ⟨?_, by norm_num, rfl, by norm_num⟩
  rw [show (6:ℚ)/5 = 4/5 + 2/5 by norm_num]
  rfl

/-- C4 amended: whenever analyze returns a verdict at all, its threat score
lies in [0, 1.2] (content score at most 0.8, plus at most one unclamped
0.4 reputation contribution), and its confidence lies in [0,1] provided
the backend-reported confidence does. -/
theorem c4_amended (page_content : Option Unit) (aiResp : AIResponse)
    (searchOut : Except PyErr (List String)) (repResp : RepResponse)
    (v : Verdict)
    (h : analyzeWith page_content aiResp searchOut repResp = Except.ok v) :
    (0 ≤ v.threat_score ∧ v.threat_score ≤ 6/5) ∧
    (aiConfIn01 aiResp = true → 0 ≤ v.confidence ∧ v.confidence ≤ 1) := by
  obtain ⟨hb0, hb45, hbconf⟩ := analyzeBase_bounds page_content aiResp
  rcases searchOut with e | l
  · simp [analyzeWith] at h
  · simp only [analyzeWith] at h
    by_cases hl : l = []
    · subst hl
      simp only [ne_eq, not_true_eq_false, if_false, Except.ok.injEq] at h
      subst h
      exact ⟨⟨hb0, by linarith⟩, fun hin => hbconf hin⟩
    · simp only [ne_eq, hl, not_false_eq_true, if_true] at h
      by_cases hc : (ai_reputation_analysis repResp).has_complaints.getD false = true
      · rw [if_pos hc] at h
        rw [Except.ok.injEq] at h
        subst h
        refine ⟨⟨?_, ?_⟩, fun hin => ?_⟩
        · simp only []
          linarith
        · simp only []
          linarith
        · exact hbconf hin
      · rw [if_neg hc] at h
        rw [Except.ok.injEq] at h
        subst h
        exact ⟨⟨hb0, by linarith⟩, fun hin => hbconf hin⟩

/-- C4 witness: the amended bounds at the concrete high-plus-complaints
outcome of the counterexample. -/
theorem c4_amended_witness :
    (0 ≤ (Verdict.mk (4/5 + 2/5) (1/2)
        ["phishing page", "Negative reviews/complaints found"]).threat_score ∧
      (Verdict.mk (4/5 + 2/5) (1/2)
        ["phishing page", "Negative reviews/complaints found"]).threat_score ≤ 6/5) ∧
    (aiConfIn01 (AIResponse.obj aiHigh) = true →
      0 ≤ (Verdict.mk (4/5 + 2/5) (1/2)
          ["phishing page", "Negative reviews/complaints found"]).confidence ∧
        (Verdict.mk (4/5 + 2/5) (1/2)
          ["phishing page", "Negative reviews/complaints found"]).confidence ≤ 1) :=
  c4_amended (some ()) (AIResponse.obj aiHigh) (Except.ok ["r"])
    (RepResponse.obj (some true))
    (Verdict.mk (4/5 + 2/5) (1/2)
      ["phishing page", "Negative reviews/complaints found"]) rfl

/-- C7: a message from a muted author is deleted and never processed, in
every path including a failed deletion. REFUTED: the early return sits
inside the try block, so when deletion fails the handler falls through;
here user 7 is actively muted, deletion fails, and link processing still
runs while the message is never deleted. -/
theorem c7_counterexample :
    isUserMuted 0 dbThreeWarnings gMuted.gid 7 = true ∧
    Action.processLinks ∈
      on_message 0 gMuted { id := 7, isBot := false, roles := ["Muted"] }
        true false dbThreeWarnings ∧
    Action.deleteMessage ∉
      on_message 0 gMuted { id := 7, isBot := false, roles := ["Muted"] }
        true false dbThreeWarnings := by
  decide

/-- C7 amended: for a non-bot author with an active mute record, when the
deletion succeeds the only action is the deletion and nothing else runs;
when the deletion fails for lack of permission the message is processed
exactly as for an unmuted author (link analysis when urls are present,
then command processing). -/
theorem c7_amended (now : Int) (g : Guild) (author : Member) (hasUrls : Bool)
    (db : DB) (hb : author.isBot = false)
    (hm : isUserMuted now db g.gid author.id = true) :
    on_message now g author hasUrls true db = [Action.deleteMessage] ∧
    on_message now g author hasUrls false db =
      (if hasUrls then [Action.processLinks] else []) ++ [Action.processCommands] := by
  constructor <;> simp [on_message, hb, hm]

/-- C7 witness: the amended gate behaviour at the concrete muted state. -/
theorem c7_amended_witness :
    on_message 0 gMuted { id := 7, isBot := false, roles := ["Muted"] }
        true true dbThreeWarnings = [Action.deleteMessage] ∧
    on_message 0 gMuted { id := 7, isBot := false, roles := ["Muted"] }
        true false dbThreeWarnings =
      (if true then [Action.processLinks] else []) ++ [Action.processCommands] :=
  c7_amended 0 gMuted { id := 7, isBot := false, roles := ["Muted"] } true
    dbThreeWarnings rfl (by decide)

end LinkGuardian
